import Mathlib

/-!
Verification of the GRIB-to-Zarr conversion engine (`Scripts/create_zarr.py`).

The embedding models:
- GRIB source files as lists of messages (`GribMessage`), in file order;
- `pygrib`'s `select` as an order-preserving filter over the message list;
- the per-step extraction loop of `extract_all_steps_from_grib`;
- `extract_variable_from_grib` for analysis variables;
- the Zarr store as per-variable time-indexed lists of cell grids, where a
  cell is `Option ℚ` (`none` models the NaN fill value, `some q` a written
  value), together with per-array metadata (shape, chunks, dtype, fill);
- `process_date`'s per-variable loop with its catch-all exception handler
  (a write fault is injected through `wf`, modelling a storage write error
  raised by the Zarr assignment inside the `try` block);
- `main`'s grid discovery, store initialization and per-date loop.
-/

namespace CreateZarr

/-- One GRIB message: short name, step-range marker (a string, as `pygrib`
exposes it), exact step, end-of-accumulation step, grid type, and the
2-D field values (rows = latitude, cols = longitude). -/
structure GribMessage where
  shortName : String
  stepRange : String
  step : Nat
  endStep : Nat
  gridType : String
  values : List (List ℚ)
deriving DecidableEq, Repr

/-- A 2-D numeric field extracted from a message. -/
abbrev Grid := List (List ℚ)

/-- A stored 2-D field: `none` is the NaN fill value. -/
abbrev CellGrid := List (List (Option ℚ))

/-- `FORECAST_VARS` from `create_zarr.py`. -/
def FORECAST_VARS : List String :=
  ["tp", "2t", "2d", "10u", "10v", "u", "v",
   "swvl1", "swvl2", "swvl3", "swvl4"]

/-- `ANALYSIS_VARS` from `create_zarr.py`. -/
def ANALYSIS_VARS : List String := ["slt", "lsm", "cl", "z"]

/-- `FORECAST_STEPS = list(range(0, 49))`. -/
def FORECAST_STEPS : List Nat := List.range 49

/-- `VAR_NAME_MAP.get(var, var)`: GRIB short name to display name. -/
def VAR_NAME_MAP (v : String) : String :=
  if v = "tp" then "total_precipitation"
  else if v = "2t" then "2m_temperature"
  else if v = "2d" then "2m_dewpoint_temperature"
  else if v = "10u" then "10m_u_component_of_wind"
  else if v = "10v" then "10m_v_component_of_wind"
  else if v = "u" then "100m_u_component_of_wind"
  else if v = "v" then "100m_v_component_of_wind"
  else if v = "swvl1" then "volumetric_soil_water_layer_1"
  else if v = "swvl2" then "volumetric_soil_water_layer_2"
  else if v = "swvl3" then "volumetric_soil_water_layer_3"
  else if v = "swvl4" then "volumetric_soil_water_layer_4"
  else if v = "slt" then "soil_type"
  else if v = "lsm" then "land_sea_mask"
  else if v = "cl" then "lake_cover"
  else if v = "z" then "geopotential"
  else v

/-- `pygrib` `grbs.select(shortName=..., stepRange=..., step=..., endStep=...)`:
keep, in file order, the messages matching every supplied criterion. -/
def grib_select (msgs : List GribMessage) (shortName : String)
    (stepRange : Option String) (step : Option Nat) (endStep : Option Nat) :
    List GribMessage :=
  msgs.filter fun m =>
    m.shortName == shortName
      && (match stepRange with | none => true | some sr => m.stepRange == sr)
      && (match step with | none => true | some s => m.step == s)
      && (match endStep with | none => true | some e => m.endStep == e)

/-- `np.zeros((nx, ny))`. -/
def zeros_grid (nx ny : Nat) : Grid :=
  List.replicate nx (List.replicate ny (0 : ℚ))

/-- The `ValueError` raised when a variable/step is not found. -/
inductive ExtractError where
  | variableNotFound (var : String) (step : Option Nat)
deriving DecidableEq, Repr

/-- One iteration of the loop body of `extract_all_steps_from_grib`
(`create_zarr.py` lines 411-445) for a single step. -/
def extract_one_step (msgs : List GribMessage) (var_shortname : String)
    (nx ny : Nat) (step : Nat) : Except ExtractError Grid :=
  if step == 0 && var_shortname == "tp" then
    .ok (zeros_grid nx ny)
  else
    let selected :=
      if var_shortname == "tp" then
        grib_select msgs var_shortname none none (some step)
      else
        grib_select msgs var_shortname (some (toString step)) none none
    let selected2 :=
      match selected with
      | [] => grib_select msgs var_shortname none (some step) none
      | l => l
    match selected2 with
    | [] => .error (.variableNotFound var_shortname (some step))
    | m :: _ => .ok m.values

/-- `extract_all_steps_from_grib`: process each requested step in order,
collecting the results; the first failure aborts with the error (the
Python loop raises out of the function). -/
def extract_all_steps_from_grib (msgs : List GribMessage)
    (var_shortname : String) (steps : List Nat) (nx ny : Nat) :
    Except ExtractError (List Grid) :=
  match steps with
  | [] => .ok []
  | s :: rest =>
    match extract_one_step msgs var_shortname nx ny s with
    | .error e => .error e
    | .ok g =>
      match extract_all_steps_from_grib msgs var_shortname rest nx ny with
      | .error e => .error e
      | .ok gs => .ok (g :: gs)

/-- `extract_variable_from_grib` (`create_zarr.py` lines 354-370). -/
def extract_variable_from_grib (msgs : List GribMessage)
    (var_shortname : String) (step : Option Nat) : Except ExtractError Grid :=
  let selected :=
    match step with
    | some s =>
      match grib_select msgs var_shortname (some (toString s)) none none with
      | [] => grib_select msgs var_shortname none (some s) none
      | l => l
    | none => grib_select msgs var_shortname none none none
  match selected with
  | [] => .error (.variableNotFound var_shortname step)
  | m :: _ => .ok m.values

/-- Grid information extracted by `read_grid_info` from the first message
of a file: `nlat = lats.shape[0]`, `nlon = lons.shape[1]`, and the grid
type.  `none` when the file has no message (`grbs[1]` would raise). -/
structure GridInfo where
  nlat : Nat
  nlon : Nat
  gridType : String
deriving DecidableEq, Repr

/-- `read_grid_info` (`create_zarr.py` lines 103-157). -/
def read_grid_info (msgs : List GribMessage) : Option GridInfo :=
  match msgs with
  | [] => none
  | m :: _ => some ⟨m.values.length, (m.values.headD []).length, m.gridType⟩

/-- Metadata of one Zarr array created by `create_dataset`: shape, chunk
shape (as requested by the caller; Zarr records them as given), dtype
string, and whether `fill_value=np.nan` was passed. -/
structure ZArrayMeta where
  shape : List Nat
  chunks : List Nat
  dtype : String
  fill_nan : Bool
deriving DecidableEq, Repr

/-- A fully-NaN 2-D slice of the store. -/
def fill_grid (nlat nlon : Nat) : CellGrid :=
  List.replicate nlat (List.replicate nlon (none : Option ℚ))

/-- A written 2-D field, cell by cell. -/
def grid_cells (g : Grid) : CellGrid :=
  g.map fun row => row.map some

/-- The data bodies of the store: per display name, the time-indexed list
of per-date content (forecast arrays carry a step axis, analysis arrays
do not). -/
structure Store where
  forecast : String → List (List CellGrid)
  analysis : String → List CellGrid

/-- Pointwise update of a keyed family. -/
def setF {α : Type} (f : String → α) (k : String) (v : α) : String → α :=
  fun x => if x = k then v else f x

/-- The root Zarr group: array metadata, the recorded grid-type attribute,
and the array bodies. -/
structure Root where
  metas : List (String × ZArrayMeta)
  grid_type_attr : String
  store : Store

/-- `initialize_zarr_store` (`create_zarr.py` lines 160-324): `None` chunk
sizes along latitude/longitude become the full axis length; every data
array is `f4` with NaN fill; forecast arrays are 4-D, analysis arrays 3-D;
all bodies start entirely at the fill value. -/
def initialize_zarr_store (grid_info : GridInfo) (ntime : Nat)
    (chunk_time : Nat) (chunk_lat chunk_lon : Option Nat) : Root :=
  let nlat := grid_info.nlat
  let nlon := grid_info.nlon
  let nstep := FORECAST_STEPS.length
  let clat := chunk_lat.getD nlat
  let clon := chunk_lon.getD nlon
  { metas :=
      [("time", ⟨[ntime], [chunk_time], "datetime64[ns]", false⟩),
       ("step", ⟨[nstep], [nstep], "i4", false⟩),
       ("latitude", ⟨[nlat], [nlat], "f4", false⟩),
       ("longitude", ⟨[nlon], [nlon], "f4", false⟩)]
      ++ FORECAST_VARS.map (fun v =>
          (VAR_NAME_MAP v,
           ⟨[ntime, nstep, nlat, nlon],
            [chunk_time, min chunk_time nstep, clat, clon], "f4", true⟩))
      ++ ANALYSIS_VARS.map (fun v =>
          (VAR_NAME_MAP v,
           ⟨[ntime, nlat, nlon], [chunk_time, clat, clon], "f4", true⟩)),
    grid_type_attr := grid_info.gridType,
    store :=
      { forecast := fun name =>
          if FORECAST_VARS.any (fun w => VAR_NAME_MAP w == name) then
            List.replicate ntime (List.replicate nstep (fill_grid nlat nlon))
          else [],
        analysis := fun name =>
          if ANALYSIS_VARS.any (fun w => VAR_NAME_MAP w == name) then
            List.replicate ntime (fill_grid nlat nlon)
          else [] } }

/-- The body of the forecast-variable loop of `process_date`
(`create_zarr.py` lines 492-506).  `wf name d = true` injects a storage
write failure on `root[name][d, ...] = data`; the surrounding
`except Exception` swallows both extraction errors and write failures. -/
def processForecastVar (msgs : List GribMessage) (date_idx nx ny : Nat)
    (wf : String → Nat → Bool) (st : Store) (var : String) : Store :=
  let var_name := VAR_NAME_MAP var
  match extract_all_steps_from_grib msgs var FORECAST_STEPS nx ny with
  | .ok data =>
    if wf var_name date_idx then st
    else
      let col := (st.forecast var_name).set date_idx (data.map grid_cells)
      { st with forecast := setF st.forecast var_name col }
  | .error _ => st

/-- The body of the analysis-variable loop of `process_date`
(`create_zarr.py` lines 510-519). -/
def processAnalysisVar (msgs : List GribMessage) (date_idx : Nat)
    (wf : String → Nat → Bool) (st : Store) (var : String) : Store :=
  let var_name := VAR_NAME_MAP var
  match extract_variable_from_grib msgs var none with
  | .ok g =>
    if wf var_name date_idx then st
    else
      let col := (st.analysis var_name).set date_idx (grid_cells g)
      { st with analysis := setF st.analysis var_name col }
  | .error _ => st

/-- No injected storage faults: the nominal environment. -/
def noWriteFault : String → Nat → Bool := fun _ _ => false

/-- `process_date` (`create_zarr.py` lines 450-519): a missing file skips
the whole date; otherwise every forecast variable, then every analysis
variable, is attempted in turn. -/
def process_date (date_idx : Nat) (file : Option (List GribMessage))
    (st : Store) (nx ny : Nat) (wf : String → Nat → Bool) : Store :=
  match file with
  | none => st
  | some msgs =>
    let st1 := FORECAST_VARS.foldl (processForecastVar msgs date_idx nx ny wf) st
    ANALYSIS_VARS.foldl (processAnalysisVar msgs date_idx wf) st1

/-- Left-to-right scan for the first date index whose file exists
(`create_zarr.py` lines 557-562). -/
def first_existing (files : Nat → Option (List GribMessage)) :
    List Nat → Option Nat
  | [] => none
  | i :: rest =>
    if (files i).isSome then some i else first_existing files rest

/-- Grid discovery over date indices `0, 1, ..., n-1` in order. -/
def find_first_grib (files : Nat → Option (List GribMessage)) (n : Nat) :
    Option Nat :=
  first_existing files (List.range n)

/-- Fatal failures of `main`. -/
inductive RunError where
  | noGribFiles
  | gridReadFailed
  | storeAllocFailed
deriving DecidableEq, Repr

/-- `main` (`create_zarr.py` lines 522-602): grid discovery, store
initialization (with an injectable allocation fault), then one
`process_date` per date index in ascending order.  Dates are identified
with their index in the requested range; `files` resolves an index to the
content of its GRIB file, or `none` when the file does not exist. -/
def main_run (files : Nat → Option (List GribMessage)) (ndates : Nat)
    (chunk_time : Nat) (chunk_lat chunk_lon : Option Nat)
    (allocFails : Bool) (wf : String → Nat → Bool) : Except RunError Root :=
  match find_first_grib files ndates with
  | none => .error .noGribFiles
  | some i =>
    match read_grid_info ((files i).getD []) with
    | none => .error .gridReadFailed
    | some gi =>
      if allocFails then .error .storeAllocFailed
      else
        let root := initialize_zarr_store gi ndates chunk_time chunk_lat chunk_lon
        let final := (List.range ndates).foldl
          (fun st d => process_date d (files d) st gi.nlat gi.nlon wf)
          root.store
        .ok { root with store := final }

/-- Decidable equality of `Except` results, for concrete evaluation. -/
instance {ε α : Type} [DecidableEq ε] [DecidableEq α] :
    DecidableEq (Except ε α) := fun a b =>
  match a, b with
  | .ok x, .ok y =>
    if h : x = y then .isTrue (h ▸ rfl)
    else .isFalse (fun hh => h (Except.ok.inj hh))
  | .error x, .error y =>
    if h : x = y then .isTrue (h ▸ rfl)
    else .isFalse (fun hh => h (Except.error.inj hh))
  | .ok _, .error _ => .isFalse (fun hh => Except.noConfusion hh)
  | .error _, .ok _ => .isFalse (fun hh => Except.noConfusion hh)

/-- The Instantaneous selection rule: the message whose step-range marker
equals `s`, falling back to exact step value `s` (spec section 4.3, rule 3;
the `else` branch of `create_zarr.py` lines 425-437). -/
def instantaneous_rule (msgs : List GribMessage) (v : String) (s : Nat) :
    Except ExtractError Grid :=
  match grib_select msgs v (some (toString s)) none none with
  | [] =>
    match grib_select msgs v none (some s) none with
    | [] => .error (.variableNotFound v (some s))
    | m :: _ => .ok m.values
  | m :: _ => .ok m.values

/-- The Accumulated path as the code implements it: zero at step 0, else
the message whose `endStep` equals `s`, with the exact-step fallback of
lines 432-437 (which applies to this branch as well). -/
def accumulated_rule (msgs : List GribMessage) (v : String) (s nx ny : Nat) :
    Except ExtractError Grid :=
  if s = 0 then .ok (zeros_grid nx ny)
  else
    match grib_select msgs v none none (some s) with
    | [] =>
      match grib_select msgs v none (some s) none with
      | [] => .error (.variableNotFound v (some s))
      | m :: _ => .ok m.values
    | m :: _ => .ok m.values

/-! ## Concrete inputs used by witnesses and counterexamples -/

/-- A file carrying `2t` at every step 0..48 with stepRange markers. -/
def msgs2t49 : List GribMessage :=
  (List.range 49).map fun i => ⟨"2t", toString i, i, i, "g", [[1]]⟩

/-- A file carrying `tp` accumulation messages ending at steps 1..48. -/
def c1msgs : List GribMessage :=
  (List.range 48).map fun i => ⟨"tp", "junk", 0, i + 1, "g", [[1]]⟩

/-- The grids extracted from `c1msgs` for `tp` at steps 0..48. -/
def c1data : List Grid := zeros_grid 1 1 :: List.replicate 48 [[(1 : ℚ)]]

/-- The grids extracted from `msgs2t49` for `2t` at steps 0..48. -/
def data2t49 : List Grid := List.replicate 49 [[(1 : ℚ)]]

/-- A freshly initialized store over a 1x1 grid with one date. -/
def initStore11 : Store := (initialize_zarr_store ⟨1, 1, "g"⟩ 1 1 none none).store

/-- A file carrying `2t` at every step plus one `lsm` analysis message. -/
def c5msgs : List GribMessage := msgs2t49 ++ [⟨"lsm", "0", 0, 0, "g", [[2]]⟩]

/-- An instantaneous message for `2t` at step-range "1". -/
def c2msg : GribMessage := ⟨"2t", "1", 1, 1, "g", [[5]]⟩

/-- A `tp` message whose `endStep` (5) differs from its `step` (3). -/
def c3msg : GribMessage := ⟨"tp", "x", 3, 5, "g", [[7]]⟩

/-- Two dates: index 0 has a file, index 1 does not. -/
def c4files : Nat → Option (List GribMessage) :=
  fun i => if i = 0 then some msgs2t49 else none

/-- No file exists for any date. -/
def noneFiles : Nat → Option (List GribMessage) := fun _ => none

/-- A storage write fault on the `2m_temperature` array. -/
def failWf2t : String → Nat → Bool := fun k _ => k == "2m_temperature"

/-! ## Helper lemmas -/

lemma setF_self {α : Type} (f : String → α) (k : String) (v : α) :
    setF f k v k = v := by
  simp [setF]

lemma setF_ne {α : Type} (f : String → α) (k k' : String) (v : α)
    (h : k' ≠ k) : setF f k v k' = f k' := by
  simp [setF, h]

lemma processForecastVar_analysis (msgs : List GribMessage) (d nx ny : Nat)
    (wf : String → Nat → Bool) (st : Store) (var : String) :
    (processForecastVar msgs d nx ny wf st var).analysis = st.analysis := by
  unfold processForecastVar
  cases extract_all_steps_from_grib msgs var FORECAST_STEPS nx ny <;> simp
  split <;> rfl

lemma processAnalysisVar_forecast (msgs : List GribMessage) (d : Nat)
    (wf : String → Nat → Bool) (st : Store) (var : String) :
    (processAnalysisVar msgs d wf st var).forecast = st.forecast := by
  unfold processAnalysisVar
  cases extract_variable_from_grib msgs var none <;> simp
  split <;> rfl

lemma processForecastVar_forecast_ne (msgs : List GribMessage) (d nx ny : Nat)
    (wf : String → Nat → Bool) (st : Store) (var : String) (K : String)
    (h : VAR_NAME_MAP var ≠ K) :
    (processForecastVar msgs d nx ny wf st var).forecast K = st.forecast K := by
  unfold processForecastVar
  cases extract_all_steps_from_grib msgs var FORECAST_STEPS nx ny <;> simp
  split
  · rfl
  · exact setF_ne _ _ _ _ (Ne.symm h)

lemma processForecastVar_forecast_self (msgs : List GribMessage)
    (d nx ny : Nat) (wf : String → Nat → Bool) (st : Store) (var : String) :
    (processForecastVar msgs d nx ny wf st var).forecast (VAR_NAME_MAP var)
      = match extract_all_steps_from_grib msgs var FORECAST_STEPS nx ny with
        | .ok data =>
          if wf (VAR_NAME_MAP var) d then st.forecast (VAR_NAME_MAP var)
          else (st.forecast (VAR_NAME_MAP var)).set d (data.map grid_cells)
        | .error _ => st.forecast (VAR_NAME_MAP var) := by
  unfold processForecastVar
  cases extract_all_steps_from_grib msgs var FORECAST_STEPS nx ny <;> simp
  split
  · rfl
  · exact setF_self _ _ _

lemma processAnalysisVar_analysis_ne (msgs : List GribMessage) (d : Nat)
    (wf : String → Nat → Bool) (st : Store) (var : String) (K : String)
    (h : VAR_NAME_MAP var ≠ K) :
    (processAnalysisVar msgs d wf st var).analysis K = st.analysis K := by
  unfold processAnalysisVar
  cases extract_variable_from_grib msgs var none <;> simp
  split
  · rfl
  · exact setF_ne _ _ _ _ (Ne.symm h)

lemma processAnalysisVar_analysis_self (msgs : List GribMessage) (d : Nat)
    (wf : String → Nat → Bool) (st : Store) (var : String) :
    (processAnalysisVar msgs d wf st var).analysis (VAR_NAME_MAP var)
      = match extract_variable_from_grib msgs var none with
        | .ok g =>
          if wf (VAR_NAME_MAP var) d then st.analysis (VAR_NAME_MAP var)
          else (st.analysis (VAR_NAME_MAP var)).set d (grid_cells g)
        | .error _ => st.analysis (VAR_NAME_MAP var) := by
  unfold processAnalysisVar
  cases extract_variable_from_grib msgs var none <;> simp
  split
  · rfl
  · exact setF_self _ _ _

lemma foldF_forecast_ne (msgs : List GribMessage) (d nx ny : Nat)
    (wf : String → Nat → Bool) (K : String) :
    ∀ (vars : List String) (st : Store),
      (∀ w ∈ vars, VAR_NAME_MAP w ≠ K) →
      ((vars.foldl (processForecastVar msgs d nx ny wf) st).forecast K)
        = st.forecast K
  | [], st, _ => rfl
  | w :: rest, st, h => by
    rw [List.foldl_cons,
      foldF_forecast_ne msgs d nx ny wf K rest _
        (fun u hu => h u (List.mem_cons_of_mem _ hu)),
      processForecastVar_forecast_ne msgs d nx ny wf st w K
        (h w (List.mem_cons_self _ _))]

lemma foldF_analysis (msgs : List GribMessage) (d nx ny : Nat)
    (wf : String → Nat → Bool) :
    ∀ (vars : List String) (st : Store),
      (vars.foldl (processForecastVar msgs d nx ny wf) st).analysis
        = st.analysis
  | [], _ => rfl
  | w :: rest, st => by
    rw [List.foldl_cons, foldF_analysis msgs d nx ny wf rest _,
      processForecastVar_analysis]

lemma foldA_forecast (msgs : List GribMessage) (d : Nat)
    (wf : String → Nat → Bool) :
    ∀ (vars : List String) (st : Store),
      (vars.foldl (processAnalysisVar msgs d wf) st).forecast = st.forecast
  | [], _ => rfl
  | w :: rest, st => by
    rw [List.foldl_cons, foldA_forecast msgs d wf rest _,
      processAnalysisVar_forecast]

lemma foldA_analysis_ne (msgs : List GribMessage) (d : Nat)
    (wf : String → Nat → Bool) (K : String) :
    ∀ (vars : List String) (st : Store),
      (∀ w ∈ vars, VAR_NAME_MAP w ≠ K) →
      ((vars.foldl (processAnalysisVar msgs d wf) st).analysis K)
        = st.analysis K
  | [], st, _ => rfl
  | w :: rest, st, h => by
    rw [List.foldl_cons,
      foldA_analysis_ne msgs d wf K rest _
        (fun u hu => h u (List.mem_cons_of_mem _ hu)),
      processAnalysisVar_analysis_ne msgs d wf st w K
        (h w (List.mem_cons_self _ _))]

lemma FORECAST_VARS_nodup : FORECAST_VARS.Nodup := by decide

lemma ANALYSIS_VARS_nodup : ANALYSIS_VARS.Nodup := by decide

lemma VAR_NAME_MAP_inj_on :
    ∀ a ∈ FORECAST_VARS ++ ANALYSIS_VARS, ∀ b ∈ FORECAST_VARS ++ ANALYSIS_VARS,
      VAR_NAME_MAP a = VAR_NAME_MAP b → a = b := by
  decide

lemma process_date_none (d : Nat) (st : Store) (nx ny : Nat)
    (wf : String → Nat → Bool) :
    process_date d none st nx ny wf = st := rfl

lemma process_date_some (d : Nat) (msgs : List GribMessage) (st : Store)
    (nx ny : Nat) (wf : String → Nat → Bool) :
    process_date d (some msgs) st nx ny wf
      = ANALYSIS_VARS.foldl (processAnalysisVar msgs d wf)
          (FORECAST_VARS.foldl (processForecastVar msgs d nx ny wf) st) := rfl

lemma mem_split_forecast (v : String) (hv : v ∈ FORECAST_VARS) :
    ∃ l1 l2, FORECAST_VARS = l1 ++ v :: l2
      ∧ (∀ w ∈ l1, VAR_NAME_MAP w ≠ VAR_NAME_MAP v)
      ∧ (∀ w ∈ l2, VAR_NAME_MAP w ≠ VAR_NAME_MAP v) := by
  obtain ⟨l1, l2, hl⟩ := List.append_of_mem hv
  have hnd : (l1 ++ v :: l2).Nodup := hl ▸ FORECAST_VARS_nodup
  rw [List.nodup_append] at hnd
  obtain ⟨_, h2, hdisj⟩ := hnd
  have hvl1 : v ∉ l1 := fun hm => hdisj hm (List.mem_cons_self _ _)
  have hvl2 : v ∉ l2 := (List.nodup_cons.mp h2).1
  refine ⟨l1, l2, hl, ?_, ?_⟩
  · intro w hw heq
    have hwF : w ∈ FORECAST_VARS := by
      rw [hl]; exact List.mem_append_left _ hw
    have hwv : w = v :=
      VAR_NAME_MAP_inj_on w (List.mem_append_left _ hwF) v
        (List.mem_append_left _ hv) heq
    exact hvl1 (hwv ▸ hw)
  · intro w hw heq
    have hwF : w ∈ FORECAST_VARS := by
      rw [hl]; exact List.mem_append_right _ (List.mem_cons_of_mem _ hw)
    have hwv : w = v :=
      VAR_NAME_MAP_inj_on w (List.mem_append_left _ hwF) v
        (List.mem_append_left _ hv) heq
    exact hvl2 (hwv ▸ hw)

lemma mem_split_analysis (v : String) (hv : v ∈ ANALYSIS_VARS) :
    ∃ l1 l2, ANALYSIS_VARS = l1 ++ v :: l2
      ∧ (∀ w ∈ l1, VAR_NAME_MAP w ≠ VAR_NAME_MAP v)
      ∧ (∀ w ∈ l2, VAR_NAME_MAP w ≠ VAR_NAME_MAP v) := by
  obtain ⟨l1, l2, hl⟩ := List.append_of_mem hv
  have hnd : (l1 ++ v :: l2).Nodup := hl ▸ ANALYSIS_VARS_nodup
  rw [List.nodup_append] at hnd
  obtain ⟨_, h2, hdisj⟩ := hnd
  have hvl1 : v ∉ l1 := fun hm => hdisj hm (List.mem_cons_self _ _)
  have hvl2 : v ∉ l2 := (List.nodup_cons.mp h2).1
  refine ⟨l1, l2, hl, ?_, ?_⟩
  · intro w hw heq
    have hwF : w ∈ ANALYSIS_VARS := by
      rw [hl]; exact List.mem_append_left _ hw
    have hwv : w = v :=
      VAR_NAME_MAP_inj_on w (List.mem_append_right _ hwF) v
        (List.mem_append_right _ hv) heq
    exact hvl1 (hwv ▸ hw)
  · intro w hw heq
    have hwF : w ∈ ANALYSIS_VARS := by
      rw [hl]; exact List.mem_append_right _ (List.mem_cons_of_mem _ hw)
    have hwv : w = v :=
      VAR_NAME_MAP_inj_on w (List.mem_append_right _ hwF) v
        (List.mem_append_right _ hv) heq
    exact hvl2 (hwv ▸ hw)

lemma process_date_forecast_var (msgs : List GribMessage) (st : Store)
    (d nx ny : Nat) (wf : String → Nat → Bool) (v : String)
    (hv : v ∈ FORECAST_VARS) :
    (process_date d (some msgs) st nx ny wf).forecast (VAR_NAME_MAP v)
      = match extract_all_steps_from_grib msgs v FORECAST_STEPS nx ny with
        | .ok data =>
          if wf (VAR_NAME_MAP v) d then st.forecast (VAR_NAME_MAP v)
          else (st.forecast (VAR_NAME_MAP v)).set d (data.map grid_cells)
        | .error _ => st.forecast (VAR_NAME_MAP v) := by
  obtain ⟨l1, l2, hl, hn1, hn2⟩ := mem_split_forecast v hv
  rw [process_date_some,
    congrFun (foldA_forecast msgs d wf ANALYSIS_VARS _) (VAR_NAME_MAP v),
    hl, List.foldl_append, List.foldl_cons,
    foldF_forecast_ne msgs d nx ny wf (VAR_NAME_MAP v) l2 _ hn2,
    processForecastVar_forecast_self,
    foldF_forecast_ne msgs d nx ny wf (VAR_NAME_MAP v) l1 st hn1]

lemma process_date_analysis_var (msgs : List GribMessage) (st : Store)
    (d nx ny : Nat) (wf : String → Nat → Bool) (v : String)
    (hv : v ∈ ANALYSIS_VARS) :
    (process_date d (some msgs) st nx ny wf).analysis (VAR_NAME_MAP v)
      = match extract_variable_from_grib msgs v none with
        | .ok g =>
          if wf (VAR_NAME_MAP v) d then st.analysis (VAR_NAME_MAP v)
          else (st.analysis (VAR_NAME_MAP v)).set d (grid_cells g)
        | .error _ => st.analysis (VAR_NAME_MAP v) := by
  obtain ⟨l1, l2, hl, hn1, hn2⟩ := mem_split_analysis v hv
  rw [process_date_some, hl, List.foldl_append, List.foldl_cons,
    foldA_analysis_ne msgs d wf (VAR_NAME_MAP v) l2 _ hn2,
    processAnalysisVar_analysis_self,
    foldA_analysis_ne msgs d wf (VAR_NAME_MAP v) l1 _ hn1,
    congrFun (foldF_analysis msgs d nx ny wf FORECAST_VARS st) (VAR_NAME_MAP v)]

lemma processForecastVar_forecast_getElem (msgs : List GribMessage)
    (j nx ny : Nat) (wf : String → Nat → Bool) (st : Store) (var K : String)
    (d : Nat) (h : j ≠ d) :
    ((processForecastVar msgs j nx ny wf st var).forecast K)[d]?
      = (st.forecast K)[d]? := by
  unfold processForecastVar
  cases extract_all_steps_from_grib msgs var FORECAST_STEPS nx ny <;> simp
  split
  · rfl
  · dsimp [setF]
    by_cases hK : K = VAR_NAME_MAP var
    · subst hK; simp [List.getElem?_set_ne h]
    · simp [hK]

lemma processAnalysisVar_analysis_getElem (msgs : List GribMessage)
    (j : Nat) (wf : String → Nat → Bool) (st : Store) (var K : String)
    (d : Nat) (h : j ≠ d) :
    ((processAnalysisVar msgs j wf st var).analysis K)[d]?
      = (st.analysis K)[d]? := by
  unfold processAnalysisVar
  cases extract_variable_from_grib msgs var none <;> simp
  split
  · rfl
  · dsimp [setF]
    by_cases hK : K = VAR_NAME_MAP var
    · subst hK; simp [List.getElem?_set_ne h]
    · simp [hK]

lemma foldF_forecast_getElem (msgs : List GribMessage) (j nx ny : Nat)
    (wf : String → Nat → Bool) (K : String) (d : Nat) (h : j ≠ d) :
    ∀ (vars : List String) (st : Store),
      (((vars.foldl (processForecastVar msgs j nx ny wf) st).forecast K)[d]?)
        = ((st.forecast K)[d]?)
  | [], _ => rfl
  | w :: rest, st => by
    rw [List.foldl_cons,
      foldF_forecast_getElem msgs j nx ny wf K d h rest _,
      processForecastVar_forecast_getElem msgs j nx ny wf st w K d h]

lemma foldA_analysis_getElem (msgs : List GribMessage) (j : Nat)
    (wf : String → Nat → Bool) (K : String) (d : Nat) (h : j ≠ d) :
    ∀ (vars : List String) (st : Store),
      (((vars.foldl (processAnalysisVar msgs j wf) st).analysis K)[d]?)
        = ((st.analysis K)[d]?)
  | [], _ => rfl
  | w :: rest, st => by
    rw [List.foldl_cons,
      foldA_analysis_getElem msgs j wf K d h rest _,
      processAnalysisVar_analysis_getElem msgs j wf st w K d h]

lemma process_date_forecast_getElem (j : Nat)
    (f : Option (List GribMessage)) (st : Store) (nx ny : Nat)
    (wf : String → Nat → Bool) (K : String) (d : Nat)
    (h : j ≠ d ∨ f = none) :
    ((process_date j f st nx ny wf).forecast K)[d]? = (st.forecast K)[d]? := by
  cases f with
  | none => rfl
  | some msgs =>
    rcases h with h | h
    · rw [process_date_some,
        congrFun (foldA_forecast msgs j wf ANALYSIS_VARS _) K,
        foldF_forecast_getElem msgs j nx ny wf K d h FORECAST_VARS st]
    · exact absurd h (Option.some_ne_none msgs)

lemma process_date_analysis_getElem (j : Nat)
    (f : Option (List GribMessage)) (st : Store) (nx ny : Nat)
    (wf : String → Nat → Bool) (K : String) (d : Nat)
    (h : j ≠ d ∨ f = none) :
    ((process_date j f st nx ny wf).analysis K)[d]? = (st.analysis K)[d]? := by
  cases f with
  | none => rfl
  | some msgs =>
    rcases h with h | h
    · rw [process_date_some,
        foldA_analysis_getElem msgs j wf K d h ANALYSIS_VARS _,
        congrFun (foldF_analysis msgs j nx ny wf FORECAST_VARS st) K]
    · exact absurd h (Option.some_ne_none msgs)

lemma run_foldl_forecast_getElem (files : Nat → Option (List GribMessage))
    (nx ny : Nat) (wf : String → Nat → Bool) (K : String) (d : Nat) :
    ∀ (l : List Nat) (st : Store),
      (∀ j ∈ l, j ≠ d ∨ files j = none) →
      (((l.foldl (fun st j => process_date j (files j) st nx ny wf) st).forecast
        K)[d]?) = ((st.forecast K)[d]?)
  | [], _, _ => rfl
  | j :: rest, st, h => by
    rw [List.foldl_cons,
      run_foldl_forecast_getElem files nx ny wf K d rest _
        (fun u hu => h u (List.mem_cons_of_mem _ hu)),
      process_date_forecast_getElem j (files j) st nx ny wf K d
        (h j (List.mem_cons_self _ _))]

lemma run_foldl_analysis_getElem (files : Nat → Option (List GribMessage))
    (nx ny : Nat) (wf : String → Nat → Bool) (K : String) (d : Nat) :
    ∀ (l : List Nat) (st : Store),
      (∀ j ∈ l, j ≠ d ∨ files j = none) →
      (((l.foldl (fun st j => process_date j (files j) st nx ny wf) st).analysis
        K)[d]?) = ((st.analysis K)[d]?)
  | [], _, _ => rfl
  | j :: rest, st, h => by
    rw [List.foldl_cons,
      run_foldl_analysis_getElem files nx ny wf K d rest _
        (fun u hu => h u (List.mem_cons_of_mem _ hu)),
      process_date_analysis_getElem j (files j) st nx ny wf K d
        (h j (List.mem_cons_self _ _))]

lemma extract_all_ok_spec (msgs : List GribMessage) (v : String)
    (nx ny : Nat) :
    ∀ (steps : List Nat) (data : List Grid),
      extract_all_steps_from_grib msgs v steps nx ny = .ok data →
      data.length = steps.length
        ∧ ∀ (i s : Nat), steps[i]? = some s →
            ∃ g, data[i]? = some g ∧ extract_one_step msgs v nx ny s = .ok g
  | [], data, h => by
    unfold extract_all_steps_from_grib at h
    cases h
    exact ⟨rfl, fun i s hs => by simp at hs⟩
  | s :: rest, data, h => by
    unfold extract_all_steps_from_grib at h
    cases hone : extract_one_step msgs v nx ny s with
    | error e => rw [hone] at h; exact absurd h (by simp)
    | ok g =>
      rw [hone] at h
      cases hrest : extract_all_steps_from_grib msgs v rest nx ny with
      | error e => rw [hrest] at h; exact absurd h (by simp)
      | ok gs =>
        rw [hrest] at h
        cases h
        obtain ⟨hlen, hidx⟩ := extract_all_ok_spec msgs v nx ny rest gs hrest
        refine ⟨by simp [hlen], ?_⟩
        intro i s' hs'
        cases i with
        | zero =>
          simp at hs'
          subst hs'
          exact ⟨g, by simp, hone⟩
        | succ i =>
          simp at hs'
          obtain ⟨g', hg', hone'⟩ := hidx i s' (by simpa using hs')
          exact ⟨g', by simpa using hg', hone'⟩

lemma extract_one_step_not_tp (msgs : List GribMessage) (v : String)
    (nx ny s : Nat) (hv : v ≠ "tp") :
    extract_one_step msgs v nx ny s = instantaneous_rule msgs v s := by
  have hbeq : (v == "tp") = false := by simp [hv]
  unfold extract_one_step instantaneous_rule
  simp only [hbeq, Bool.and_false, Bool.false_eq_true, if_false]
  cases grib_select msgs v (some (toString s)) none none <;> rfl

lemma extract_one_step_tp (msgs : List GribMessage) (nx ny s : Nat) :
    extract_one_step msgs "tp" nx ny s = accumulated_rule msgs "tp" s nx ny := by
  unfold extract_one_step accumulated_rule
  cases s with
  | zero => rfl
  | succ s =>
    simp only [Nat.succ_ne_zero, if_false]
    cases grib_select msgs "tp" none none (some (s + 1)) <;> rfl

lemma first_existing_eq_none (files : Nat → Option (List GribMessage)) :
    ∀ l : List Nat,
      first_existing files l = none ↔ ∀ j ∈ l, files j = none
  | [] => by simp [first_existing]
  | i :: rest => by
    unfold first_existing
    by_cases h : (files i).isSome
    · simp only [h, if_true]
      constructor
      · intro hh; exact absurd hh (by simp)
      · intro hh
        have := hh i (List.mem_cons_self _ _)
        rw [this] at h
        exact absurd h (by simp)
    · rw [if_neg h]
      rw [first_existing_eq_none files rest]
      constructor
      · intro hh j hj
        rcases List.mem_cons.mp hj with rfl | hj
        · exact Option.not_isSome_iff_eq_none.mp h
        · exact hh j hj
      · intro hh j hj
        exact hh j (List.mem_cons_of_mem _ hj)

lemma find_first_grib_eq_none (files : Nat → Option (List GribMessage))
    (n : Nat) :
    find_first_grib files n = none ↔ ∀ j, j < n → files j = none := by
  rw [find_first_grib, first_existing_eq_none]
  constructor
  · intro h j hj; exact h j (List.mem_range.mpr hj)
  · intro h j hj; exact h j (List.mem_range.mp hj)

lemma first_existing_append (files : Nat → Option (List GribMessage)) :
    ∀ l1 l2 : List Nat,
      first_existing files (l1 ++ l2)
        = match first_existing files l1 with
          | some i => some i
          | none => first_existing files l2
  | [], l2 => rfl
  | i :: rest, l2 => by
    show (if (files i).isSome then some i else first_existing files (rest ++ l2))
      = match (if (files i).isSome then some i else first_existing files rest) with
        | some j => some j
        | none => first_existing files l2
    by_cases h : (files i).isSome
    · rw [if_pos h, if_pos h]
    · rw [if_neg h, if_neg h]
      exact first_existing_append files rest l2

lemma find_first_grib_some (files : Nat → Option (List GribMessage)) :
    ∀ n i, find_first_grib files n = some i →
      i < n ∧ (files i).isSome ∧ ∀ j, j < i → files j = none := by
  intro n
  induction n with
  | zero => intro i h; exact absurd h (by simp [find_first_grib, first_existing])
  | succ n ih =>
    intro i h
    rw [find_first_grib, List.range_succ, first_existing_append] at h
    cases hn : first_existing files (List.range n) with
    | some j =>
      rw [hn] at h
      have hji : j = i := by simpa using h
      have hspec := ih j hn
      rw [← hji]
      exact ⟨Nat.lt_succ_of_lt hspec.1, hspec.2.1, hspec.2.2⟩
    | none =>
      rw [hn] at h
      have h2 : (if (files n).isSome then some n
          else first_existing files []) = some i := h
      by_cases hf : (files n).isSome
      · rw [if_pos hf] at h2
        have hni : n = i := by simpa using h2
        rw [← hni]
        refine ⟨Nat.lt_succ_self _, hf, ?_⟩
        intro j hj
        exact (find_first_grib_eq_none files n).mp hn j hj
      · rw [if_neg hf] at h2
        exact absurd h2 (by simp [first_existing])

lemma main_run_some (files : Nat → Option (List GribMessage)) (n : Nat)
    (ct : Nat) (cl co : Option Nat) (wf : String → Nat → Bool)
    (i : Nat) (msgs : List GribMessage) (gi : GridInfo)
    (hf : find_first_grib files n = some i) (hm : files i = some msgs)
    (hg : read_grid_info msgs = some gi) :
    main_run files n ct cl co false wf
      = .ok { initialize_zarr_store gi n ct cl co with
              store := (List.range n).foldl
                (fun st d => process_date d (files d) st gi.nlat gi.nlon wf)
                (initialize_zarr_store gi n ct cl co).store } := by
  unfold main_run
  rw [hf]
  simp only [hm, Option.getD_some]
  rw [hg]
  rfl

lemma main_run_alloc_fail (files : Nat → Option (List GribMessage)) (n : Nat)
    (ct : Nat) (cl co : Option Nat) (wf : String → Nat → Bool)
    (i : Nat) (msgs : List GribMessage) (gi : GridInfo)
    (hf : find_first_grib files n = some i) (hm : files i = some msgs)
    (hg : read_grid_info msgs = some gi) :
    main_run files n ct cl co true wf = .error .storeAllocFailed := by
  unfold main_run
  rw [hf]
  simp only [hm, Option.getD_some]
  rw [hg]
  rfl

lemma init_forecast_body (gi : GridInfo) (ntime ct : Nat)
    (cl co : Option Nat) (v : String) (hv : v ∈ FORECAST_VARS) :
    (initialize_zarr_store gi ntime ct cl co).store.forecast (VAR_NAME_MAP v)
      = List.replicate ntime
          (List.replicate 49 (fill_grid gi.nlat gi.nlon)) := by
  show (if FORECAST_VARS.any (fun w => VAR_NAME_MAP w == VAR_NAME_MAP v) then
          List.replicate ntime
            (List.replicate FORECAST_STEPS.length (fill_grid gi.nlat gi.nlon))
        else []) = _
  rw [if_pos (List.any_eq_true.mpr ⟨v, hv, by simp⟩)]
  simp [FORECAST_STEPS]

lemma init_analysis_body (gi : GridInfo) (ntime ct : Nat)
    (cl co : Option Nat) (v : String) (hv : v ∈ ANALYSIS_VARS) :
    (initialize_zarr_store gi ntime ct cl co).store.analysis (VAR_NAME_MAP v)
      = List.replicate ntime (fill_grid gi.nlat gi.nlon) := by
  show (if ANALYSIS_VARS.any (fun w => VAR_NAME_MAP w == VAR_NAME_MAP v) then
          List.replicate ntime (fill_grid gi.nlat gi.nlon)
        else []) = _
  rw [if_pos (List.any_eq_true.mpr ⟨v, hv, by simp⟩)]

/-! ## Claims -/

/-- C1: For the Accumulated variable (`tp`), step-0 extraction returns the
zero-filled `(nx, ny)` grid for every possible file content — so no message
of the source file is consulted for this step — the zero grid is identically
zero with shape `(nx, ny)`, and whenever the variable's batched extraction
succeeds, the stored slice `array[d, 0, :, :]` is identically zero
regardless of the file's content at step 0. -/
theorem C1_step0_zero_fill (nx ny : Nat) :
    (∀ msgs : List GribMessage,
      extract_one_step msgs "tp" nx ny 0 = .ok (zeros_grid nx ny))
    ∧ ((zeros_grid nx ny).length = nx
       ∧ ∀ row ∈ zeros_grid nx ny, row.length = ny ∧ ∀ x ∈ row, x = 0)
    ∧ (∀ (msgs : List GribMessage) (st : Store) (d : Nat) (data : List Grid),
        extract_all_steps_from_grib msgs "tp" FORECAST_STEPS nx ny = .ok data →
        d < (st.forecast "total_precipitation").length →
        ∃ col,
          ((process_date d (some msgs) st nx ny noWriteFault).forecast
            "total_precipitation")[d]? = some col
          ∧ col[0]? = some (grid_cells (zeros_grid nx ny))
          ∧ ∀ row ∈ grid_cells (zeros_grid nx ny), ∀ c ∈ row, c = some 0) := by
  refine ⟨fun msgs => rfl, ⟨by simp [zeros_grid], ?_⟩, ?_⟩
  · intro row hrow
    simp only [zeros_grid] at hrow
    rw [List.eq_of_mem_replicate hrow]
    exact ⟨by simp, fun x hx => List.eq_of_mem_replicate hx⟩
  · intro msgs st d data hex hd
    have hv : "tp" ∈ FORECAST_VARS := by decide
    have hpd := process_date_forecast_var msgs st d nx ny noWriteFault "tp" hv
    rw [hex] at hpd
    simp only [noWriteFault, Bool.false_eq_true, if_false] at hpd
    have hmap : VAR_NAME_MAP "tp" = "total_precipitation" := rfl
    rw [hmap] at hpd
    refine ⟨data.map grid_cells, ?_, ?_, ?_⟩
    · rw [hpd]
      exact List.getElem?_set_eq_of_lt _ hd
    · obtain ⟨hlen, hidx⟩ := extract_all_ok_spec msgs "tp" nx ny FORECAST_STEPS data hex
      obtain ⟨g, hg, hone⟩ := hidx 0 0 (by decide)
      have hzero : extract_one_step msgs "tp" nx ny 0 = .ok (zeros_grid nx ny) := rfl
      rw [hzero] at hone
      cases hone
      rw [List.getElem?_map, hg, Option.map_some']
    · intro row hrow c hc
      rw [grid_cells, zeros_grid, List.map_replicate] at hrow
      rw [List.eq_of_mem_replicate hrow, List.map_replicate] at hc
      exact List.eq_of_mem_replicate hc

/-- C1 witness: over a 1x1 grid with a file carrying `tp` accumulations for
steps 1..48, the stored `total_precipitation` slice at date 0, step 0 is the
zero grid. -/
theorem C1_step0_zero_fill_witness :
    ∃ col,
      ((process_date 0 (some c1msgs) initStore11 1 1 noWriteFault).forecast
        "total_precipitation")[0]? = some col
      ∧ col[0]? = some (grid_cells (zeros_grid 1 1))
      ∧ ∀ row ∈ grid_cells (zeros_grid 1 1), ∀ c ∈ row, c = some 0 :=
  (C1_step0_zero_fill 1 1).2.2 c1msgs initStore11 0 c1data (by decide) (by decide)

/-- C2: For every non-`tp` (Instantaneous) variable and step `s`, the
extractor selects the message whose step-range marker equals `toString s`;
if none exists it falls back to exact step value `s`; the first match in
file order is returned, and when the batched extraction succeeds that value
is written unchanged into `array[d, s, :, :]`. -/
theorem C2_instantaneous_selection (msgs : List GribMessage) (v : String)
    (s nx ny : Nat) (hv : v ≠ "tp") :
    (∀ m rest, grib_select msgs v (some (toString s)) none none = m :: rest →
      extract_one_step msgs v nx ny s = .ok m.values)
    ∧ (grib_select msgs v (some (toString s)) none none = [] →
       ∀ m rest, grib_select msgs v none (some s) none = m :: rest →
         extract_one_step msgs v nx ny s = .ok m.values)
    ∧ (∀ (st : Store) (d : Nat) (data : List Grid) m rest,
        v ∈ FORECAST_VARS → s < 49 →
        d < (st.forecast (VAR_NAME_MAP v)).length →
        extract_all_steps_from_grib msgs v FORECAST_STEPS nx ny = .ok data →
        grib_select msgs v (some (toString s)) none none = m :: rest →
        ∃ col,
          ((process_date d (some msgs) st nx ny noWriteFault).forecast
            (VAR_NAME_MAP v))[d]? = some col
          ∧ col[s]? = some (grid_cells m.values)) := by
  refine ⟨?_, ?_, ?_⟩
  · intro m rest hsel
    rw [extract_one_step_not_tp msgs v nx ny s hv, instantaneous_rule, hsel]
  · intro hempty m rest hsel
    rw [extract_one_step_not_tp msgs v nx ny s hv, instantaneous_rule, hempty, hsel]
  · intro st d data m rest hvF hs hd hex hsel
    have hpd := process_date_forecast_var msgs st d nx ny noWriteFault v hvF
    rw [hex] at hpd
    simp only [noWriteFault, Bool.false_eq_true, if_false] at hpd
    refine ⟨data.map grid_cells, ?_, ?_⟩
    · rw [hpd]
      exact List.getElem?_set_eq_of_lt _ hd
    · obtain ⟨hlen, hidx⟩ := extract_all_ok_spec msgs v nx ny FORECAST_STEPS data hex
      obtain ⟨g, hg, hone⟩ := hidx s s (by simpa [FORECAST_STEPS] using List.getElem?_range hs)
      rw [extract_one_step_not_tp msgs v nx ny s hv, instantaneous_rule, hsel] at hone
      cases hone
      rw [List.getElem?_map, hg, Option.map_some']

/-- C2 witness: with a single `2t` message at step-range "1", step 1
extraction returns its values, and the exact-step fallback fires on a file
whose step-range markers are unusable. -/
theorem C2_instantaneous_selection_witness :
    extract_one_step [c2msg] "2t" 1 1 1 = .ok [[(5 : ℚ)]]
    ∧ extract_one_step [⟨"2t", "0-1", 1, 1, "g", [[6]]⟩] "2t" 1 1 1
        = .ok [[(6 : ℚ)]] :=
  ⟨(C2_instantaneous_selection [c2msg] "2t" 1 1 1 (by decide)).1 c2msg [] rfl,
   (C2_instantaneous_selection [⟨"2t", "0-1", 1, 1, "g", [[6]]⟩] "2t" 1 1 1
     (by decide)).2.1 rfl ⟨"2t", "0-1", 1, 1, "g", [[6]]⟩ [] rfl⟩

/-- C3 counterexample: the claim says that for `tp` at `s > 0` only the
endStep rule applies and that the extractor raises when it finds nothing;
but on a file whose only `tp` message has `endStep = 5` and `step = 3`,
requesting step 3 finds nothing by the endStep rule and still returns that
message through the exact-step fallback instead of raising. -/
theorem C3_counterexample :
    grib_select [c3msg] "tp" none none (some 3) = []
    ∧ extract_one_step [c3msg] "tp" 1 1 3 = .ok [[(7 : ℚ)]]
    ∧ extract_one_step [c3msg] "tp" 1 1 3
        ≠ .error (.variableNotFound "tp" (some 3)) := by
  refine ⟨rfl, rfl, by decide⟩

/-- C3 (amended): for `tp` at `s > 0` the extractor selects the first
message whose `endStep` equals `s`; if none matches, it falls back to the
exact step value `s`; only when both selections are empty does it raise
the variable-not-found error for that variable and step. -/
theorem C3_accumulated_selection (msgs : List GribMessage) (s nx ny : Nat)
    (hs : s ≠ 0) :
    (∀ m rest, grib_select msgs "tp" none none (some s) = m :: rest →
      extract_one_step msgs "tp" nx ny s = .ok m.values)
    ∧ (grib_select msgs "tp" none none (some s) = [] →
       ∀ m rest, grib_select msgs "tp" none (some s) none = m :: rest →
         extract_one_step msgs "tp" nx ny s = .ok m.values)
    ∧ (grib_select msgs "tp" none none (some s) = [] →
       grib_select msgs "tp" none (some s) none = [] →
       extract_one_step msgs "tp" nx ny s
         = .error (.variableNotFound "tp" (some s))) := by
  refine ⟨?_, ?_, ?_⟩
  · intro m rest hsel
    rw [extract_one_step_tp msgs nx ny s, accumulated_rule, if_neg hs, hsel]
  · intro hempty m rest hsel
    rw [extract_one_step_tp msgs nx ny s, accumulated_rule, if_neg hs, hempty, hsel]
  · intro hempty hempty2
    rw [extract_one_step_tp msgs nx ny s, accumulated_rule, if_neg hs, hempty, hempty2]

/-- C3 witness: endStep selection returns the accumulation message; on an
empty file both rules fail and the extractor raises. -/
theorem C3_accumulated_selection_witness :
    extract_one_step [⟨"tp", "0-2", 0, 2, "g", [[9]]⟩] "tp" 1 1 2
      = .ok [[(9 : ℚ)]]
    ∧ extract_one_step [] "tp" 1 1 2
        = .error (.variableNotFound "tp" (some 2)) :=
  ⟨(C3_accumulated_selection [⟨"tp", "0-2", 0, 2, "g", [[9]]⟩] 2 1 1
      (by decide)).1 ⟨"tp", "0-2", 0, 2, "g", [[9]]⟩ [] rfl,
   (C3_accumulated_selection [] 2 1 1 (by decide)).2.2 rfl rfl⟩

/-- C10: the variable kind is decided solely by comparing the short
identifier with the literal "tp": the `tp` path gets the step-0 zero fill
and endStep selection, and every other variable — whatever its kind — is
selected by the instantaneous step-range rule; in particular on an empty
file, step 0 succeeds with zeros exactly for `tp` and errors for any other
name. -/
theorem C10_kind_by_shortname (msgs : List GribMessage) (v : String)
    (s nx ny : Nat) :
    (v = "tp" → extract_one_step msgs v nx ny s
      = accumulated_rule msgs v s nx ny)
    ∧ (v ≠ "tp" → extract_one_step msgs v nx ny s
      = instantaneous_rule msgs v s)
    ∧ (v ≠ "tp" → extract_one_step [] v nx ny 0
      = .error (.variableNotFound v (some 0)))
    ∧ extract_one_step [] "tp" nx ny 0 = .ok (zeros_grid nx ny) := by
  refine ⟨?_, ?_, ?_, rfl⟩
  · intro hv
    subst hv
    exact extract_one_step_tp msgs nx ny s
  · intro hv
    exact extract_one_step_not_tp msgs v nx ny s hv
  · intro hv
    rw [extract_one_step_not_tp [] v nx ny 0 hv]
    rfl

/-- C10 witness: `swvl1` (a soil-water variable) takes the instantaneous
path and errors at step 0 on an empty file, while `tp` returns zeros there. -/
theorem C10_kind_by_shortname_witness :
    extract_one_step [] "swvl1" 1 1 0
      = .error (.variableNotFound "swvl1" (some 0))
    ∧ extract_one_step [] "tp" 1 1 0 = .ok (zeros_grid 1 1) :=
  ⟨(C10_kind_by_shortname [] "swvl1" 0 1 1).2.2.1 (by decide),
   (C10_kind_by_shortname [] "tp" 0 1 1).2.2.2⟩

/-- C4: when the file for date index `d` does not exist, the run completes
without raising and every variable's slice at index `d` — forecast and
analysis alike — is still entirely at the NaN fill value in the final
store. -/
theorem C4_missing_file_skipped (files : Nat → Option (List GribMessage))
    (n d i : Nat) (msgs : List GribMessage) (gi : GridInfo) (ct : Nat)
    (cl co : Option Nat) (wf : String → Nat → Bool)
    (hf : find_first_grib files n = some i) (hm : files i = some msgs)
    (hg : read_grid_info msgs = some gi)
    (hmiss : files d = none) (hdn : d < n) :
    ∃ root, main_run files n ct cl co false wf = .ok root
      ∧ (∀ v ∈ FORECAST_VARS, (root.store.forecast (VAR_NAME_MAP v))[d]?
          = some (List.replicate 49 (fill_grid gi.nlat gi.nlon)))
      ∧ (∀ v ∈ ANALYSIS_VARS, (root.store.analysis (VAR_NAME_MAP v))[d]?
          = some (fill_grid gi.nlat gi.nlon)) := by
  refine ⟨_, main_run_some files n ct cl co wf i msgs gi hf hm hg, ?_, ?_⟩
  · intro v hv
    have hcond : ∀ j ∈ List.range n, j ≠ d ∨ files j = none := by
      intro j _
      by_cases hjd : j = d
      · exact Or.inr (hjd ▸ hmiss)
      · exact Or.inl hjd
    rw [run_foldl_forecast_getElem files gi.nlat gi.nlon wf
        (VAR_NAME_MAP v) d (List.range n) _ hcond,
      init_forecast_body gi n ct cl co v hv]
    simp [hdn]
  · intro v hv
    have hcond : ∀ j ∈ List.range n, j ≠ d ∨ files j = none := by
      intro j _
      by_cases hjd : j = d
      · exact Or.inr (hjd ▸ hmiss)
      · exact Or.inl hjd
    rw [run_foldl_analysis_getElem files gi.nlat gi.nlon wf
        (VAR_NAME_MAP v) d (List.range n) _ hcond,
      init_analysis_body gi n ct cl co v hv]
    simp [hdn]

/-- C4 witness: a two-date run whose second file is missing completes and
leaves the second slice of every variable at fill value. -/
theorem C4_missing_file_skipped_witness :
    ∃ root, main_run c4files 2 1 none none false noWriteFault = .ok root
      ∧ (∀ v ∈ FORECAST_VARS, (root.store.forecast (VAR_NAME_MAP v))[1]?
          = some (List.replicate 49 (fill_grid 1 1)))
      ∧ (∀ v ∈ ANALYSIS_VARS, (root.store.analysis (VAR_NAME_MAP v))[1]?
          = some (fill_grid 1 1)) :=
  C4_missing_file_skipped c4files 2 1 0 msgs2t49 ⟨1, 1, "g"⟩ 1 none none
    noWriteFault rfl rfl rfl rfl (by decide)

/-- C5: an extraction failure for any configured variable — forecast or
analysis — leaves exactly that variable's array unchanged for the date,
while every other variable is still attempted and, on success, written;
the date processor returns normally, so neither the date nor the run
aborts. -/
theorem C5_variable_isolation (msgs : List GribMessage) (st : Store)
    (d nx ny : Nat) :
    (∀ v ∈ FORECAST_VARS, ∀ e : ExtractError,
        extract_all_steps_from_grib msgs v FORECAST_STEPS nx ny = .error e →
        (process_date d (some msgs) st nx ny noWriteFault).forecast
            (VAR_NAME_MAP v) = st.forecast (VAR_NAME_MAP v))
    ∧ (∀ v ∈ ANALYSIS_VARS, ∀ e : ExtractError,
        extract_variable_from_grib msgs v none = .error e →
        (process_date d (some msgs) st nx ny noWriteFault).analysis
            (VAR_NAME_MAP v) = st.analysis (VAR_NAME_MAP v))
    ∧ (∀ w ∈ FORECAST_VARS, ∀ data,
        extract_all_steps_from_grib msgs w FORECAST_STEPS nx ny = .ok data →
        (process_date d (some msgs) st nx ny noWriteFault).forecast
            (VAR_NAME_MAP w)
          = (st.forecast (VAR_NAME_MAP w)).set d (data.map grid_cells))
    ∧ (∀ w ∈ ANALYSIS_VARS, ∀ g,
        extract_variable_from_grib msgs w none = .ok g →
        (process_date d (some msgs) st nx ny noWriteFault).analysis
            (VAR_NAME_MAP w)
          = (st.analysis (VAR_NAME_MAP w)).set d (grid_cells g)) := by
  refine ⟨?_, ?_, ?_, ?_⟩
  · intro v hv e herr
    rw [process_date_forecast_var msgs st d nx ny noWriteFault v hv, herr]
  · intro v hv e herr
    rw [process_date_analysis_var msgs st d nx ny noWriteFault v hv, herr]
  · intro w hw data hok
    rw [process_date_forecast_var msgs st d nx ny noWriteFault w hw, hok]
    rfl
  · intro w hw g hok
    rw [process_date_analysis_var msgs st d nx ny noWriteFault w hw, hok]
    rfl

/-- C5 witness: on a file carrying `2t` and `lsm`, extraction of the
forecast variable `10u` and of the analysis variable `slt` both fail and
their arrays are untouched, while `2t` and `lsm` are still extracted and
written. -/
theorem C5_variable_isolation_witness :
    ((process_date 0 (some c5msgs) initStore11 1 1 noWriteFault).forecast
        (VAR_NAME_MAP "10u") = initStore11.forecast (VAR_NAME_MAP "10u"))
    ∧ ((process_date 0 (some c5msgs) initStore11 1 1 noWriteFault).analysis
        (VAR_NAME_MAP "slt") = initStore11.analysis (VAR_NAME_MAP "slt"))
    ∧ ((process_date 0 (some c5msgs) initStore11 1 1 noWriteFault).forecast
        (VAR_NAME_MAP "2t")
      = (initStore11.forecast (VAR_NAME_MAP "2t")).set 0
          (data2t49.map grid_cells))
    ∧ ((process_date 0 (some c5msgs) initStore11 1 1 noWriteFault).analysis
        (VAR_NAME_MAP "lsm")
      = (initStore11.analysis (VAR_NAME_MAP "lsm")).set 0
          (grid_cells [[(2 : ℚ)]])) := by
  have h := C5_variable_isolation c5msgs initStore11 0 1 1
  exact ⟨h.1 "10u" (by decide) (.variableNotFound "10u" (some 0)) (by decide),
    h.2.1 "slt" (by decide) (.variableNotFound "slt" none) (by decide),
    h.2.2.1 "2t" (by decide) data2t49 (by decide),
    h.2.2.2 "lsm" (by decide) [[(2 : ℚ)]] (by decide)⟩

/-- C6 counterexample: the claim says a storage write failure during
per-date processing propagates and terminates the run; but with a write
fault injected on the `2m_temperature` array (whose extraction from the
file succeeds), the run still completes normally and that array is simply
left at fill value — the catch-all per-variable handler swallows the
write failure. -/
theorem C6_counterexample :
    ∃ root, main_run c4files 1 1 none none false failWf2t = .ok root
      ∧ (root.store.forecast "2m_temperature")[0]?
          = some (List.replicate 49 (fill_grid 1 1)) := by
  refine ⟨_, rfl, ?_⟩
  decide

/-- C6 (amended): store allocation failures do propagate and abort the run,
and the run never aborts from a write failure inside per-date processing:
a faulted write leaves the variable's slice unchanged and `main` still
returns a store. -/
theorem C6_error_propagation (files : Nat → Option (List GribMessage))
    (n i : Nat) (msgs : List GribMessage) (gi : GridInfo) (ct : Nat)
    (cl co : Option Nat) (wf : String → Nat → Bool)
    (hf : find_first_grib files n = some i) (hm : files i = some msgs)
    (hg : read_grid_info msgs = some gi) :
    main_run files n ct cl co true wf = .error .storeAllocFailed
    ∧ (∃ root, main_run files n ct cl co false wf = .ok root)
    ∧ (∀ (msgs2 : List GribMessage) (st : Store) (d nx ny : Nat)
        (v : String), v ∈ FORECAST_VARS → wf (VAR_NAME_MAP v) d = true →
        (process_date d (some msgs2) st nx ny wf).forecast (VAR_NAME_MAP v)
          = st.forecast (VAR_NAME_MAP v)) := by
  refine ⟨main_run_alloc_fail files n ct cl co wf i msgs gi hf hm hg,
    ⟨_, main_run_some files n ct cl co wf i msgs gi hf hm hg⟩, ?_⟩
  intro msgs2 st d nx ny v hv hwf
  rw [process_date_forecast_var msgs2 st d nx ny wf v hv]
  cases hE : extract_all_steps_from_grib msgs2 v FORECAST_STEPS nx ny with
  | ok data => simp [hwf]
  | error e => rfl

/-- C6 witness: concrete run with an injected allocation failure aborts;
the same configuration without it completes; a faulted `2t` write leaves
the slice unchanged. -/
theorem C6_error_propagation_witness :
    main_run c4files 1 1 none none true failWf2t = .error .storeAllocFailed
    ∧ (∃ root, main_run c4files 1 1 none none false failWf2t = .ok root)
    ∧ (process_date 0 (some msgs2t49) initStore11 1 1 failWf2t).forecast
        (VAR_NAME_MAP "2t") = initStore11.forecast (VAR_NAME_MAP "2t") := by
  have h := C6_error_propagation c4files 1 0 msgs2t49 ⟨1, 1, "g"⟩ 1 none none
    failWf2t rfl rfl rfl
  exact ⟨h.1, h.2.1, h.2.2 msgs2t49 initStore11 0 1 1 "2t" (by decide)
    (by decide)⟩

/-- C7: grid discovery scans the requested dates in ascending order; when no
file exists in the whole range the run aborts with the fatal not-found error
(and hence before any store is created); when discovery succeeds it returns
the first index whose file exists, all earlier dates having no file, and the
store is built from that file's grid descriptor. -/
theorem C7_grid_discovery (files : Nat → Option (List GribMessage)) (n : Nat)
    (ct : Nat) (cl co : Option Nat) (wf : String → Nat → Bool) :
    ((∀ j, j < n → files j = none) →
      main_run files n ct cl co false wf = .error .noGribFiles)
    ∧ (∀ i, find_first_grib files n = some i →
        i < n ∧ (files i).isSome ∧ ∀ j, j < i → files j = none)
    ∧ (∀ (i : Nat) (msgs : List GribMessage) (gi : GridInfo),
        find_first_grib files n = some i → files i = some msgs →
        read_grid_info msgs = some gi →
        ∃ root, main_run files n ct cl co false wf = .ok root
          ∧ root.grid_type_attr = gi.gridType
          ∧ root.metas.lookup "latitude"
              = some ⟨[gi.nlat], [gi.nlat], "f4", false⟩
          ∧ root.metas.lookup "longitude"
              = some ⟨[gi.nlon], [gi.nlon], "f4", false⟩) := by
  refine ⟨?_, find_first_grib_some files n, ?_⟩
  · intro hall
    unfold main_run
    rw [(find_first_grib_eq_none files n).mpr hall]
  · intro i msgs gi hf hm hg
    exact ⟨_, main_run_some files n ct cl co wf i msgs gi hf hm hg,
      rfl, rfl, rfl⟩

/-- C7 witness: with no files over three dates, the run aborts with the
not-found error; with a file only at index 0 of two dates, discovery picks
index 0 and the store records that file's grid. -/
theorem C7_grid_discovery_witness :
    main_run noneFiles 3 1 none none false noWriteFault = .error .noGribFiles
    ∧ (0 < 2 ∧ (c4files 0).isSome ∧ ∀ j, j < 0 → c4files j = none)
    ∧ (∃ root, main_run c4files 2 1 none none false noWriteFault = .ok root
        ∧ root.grid_type_attr = "g"
        ∧ root.metas.lookup "latitude" = some ⟨[1], [1], "f4", false⟩
        ∧ root.metas.lookup "longitude" = some ⟨[1], [1], "f4", false⟩) :=
  ⟨(C7_grid_discovery noneFiles 3 1 none none noWriteFault).1
      (fun _ _ => rfl),
   (C7_grid_discovery c4files 2 1 none none noWriteFault).2.1 0 rfl,
   (C7_grid_discovery c4files 2 1 none none noWriteFault).2.2 0 msgs2t49
      ⟨1, 1, "g"⟩ rfl rfl rfl⟩

/-- C8 counterexample: the claim says the chunk size actually used never
exceeds the axis length; but a caller-supplied latitude chunk size of 5 on
a 2-point latitude axis is passed through unclamped, so a created array has
a chunk size exceeding its axis length. -/
theorem C8_counterexample :
    ∃ p ∈ (initialize_zarr_store ⟨2, 2, "regular_ll"⟩ 1 1 (some 5) none).metas,
      p.2.chunks[2]? = some 5 ∧ p.2.shape[2]? = some 2 ∧ (2 : Nat) < 5 := by
  refine ⟨("total_precipitation",
    ⟨[1, 49, 2, 2], [1, 1, 5, 2], "f4", true⟩), ?_, rfl, rfl, by omega⟩
  decide

/-- C8 (amended): a `None` chunk size along latitude or longitude means one
chunk spanning the full axis, and with `None` lat/lon chunk sizes and a time
chunk request not exceeding the date count, no array's chunk size exceeds
its axis length (the step axis being clamped to `min chunk_time 49`); an
explicit numeric lat/lon request, by contrast, is passed through unclamped. -/
theorem C8_chunk_bounds (gi : GridInfo) (ntime ct : Nat)
    (hct : ct ≤ ntime) :
    (∀ p ∈ (initialize_zarr_store gi ntime ct none none).metas,
      p.2.chunks.length = p.2.shape.length
      ∧ ∀ (k c s : Nat), p.2.chunks[k]? = some c → p.2.shape[k]? = some s →
          c ≤ s)
    ∧ (∀ v ∈ FORECAST_VARS,
        (initialize_zarr_store gi ntime ct none none).metas.lookup
            (VAR_NAME_MAP v)
          = some ⟨[ntime, 49, gi.nlat, gi.nlon],
              [ct, min ct 49, gi.nlat, gi.nlon], "f4", true⟩)
    ∧ (∀ v ∈ ANALYSIS_VARS,
        (initialize_zarr_store gi ntime ct none none).metas.lookup
            (VAR_NAME_MAP v)
          = some ⟨[ntime, gi.nlat, gi.nlon], [ct, gi.nlat, gi.nlon],
              "f4", true⟩) := by
  refine ⟨?_, ?_, ?_⟩
  · intro p hp
    simp only [initialize_zarr_store, List.mem_append, List.mem_cons,
      List.mem_map, List.not_mem_nil, or_false, Option.getD_none] at hp
    rcases hp with ((hp | hp | hp | hp) | ⟨w, hw, hp⟩) | ⟨w, hw, hp⟩
    · subst hp
      refine ⟨rfl, ?_⟩
      intro k c s hc hs
      rcases k with _ | k
      · simp at hc hs; omega
      · simp at hc
    · subst hp
      refine ⟨rfl, ?_⟩
      intro k c s hc hs
      rcases k with _ | k
      · simp at hc hs; omega
      · simp at hc
    · subst hp
      refine ⟨rfl, ?_⟩
      intro k c s hc hs
      rcases k with _ | k
      · simp at hc hs; omega
      · simp at hc
    · subst hp
      refine ⟨rfl, ?_⟩
      intro k c s hc hs
      rcases k with _ | k
      · simp at hc hs; omega
      · simp at hc
    · rw [← hp]
      refine ⟨rfl, ?_⟩
      intro k c s hc hs
      rcases k with _ | _ | _ | _ | k
      · simp at hc hs; omega
      · simp only [List.getElem?_cons_succ, List.getElem?_cons_zero,
          Option.some.injEq] at hc hs
        subst hc
        subst hs
        exact Nat.min_le_right _ _
      · simp at hc hs; omega
      · simp at hc hs; omega
      · simp at hc
    · rw [← hp]
      refine ⟨rfl, ?_⟩
      intro k c s hc hs
      rcases k with _ | _ | _ | k
      · simp at hc hs; omega
      · simp at hc hs; omega
      · simp at hc hs; omega
      · simp at hc
  · intro v hv
    fin_cases hv <;> rfl
  · intro v hv
    fin_cases hv <;> rfl

/-- C8 witness: the forecast arrays of a store over a 3x4 grid with two
dates, time chunk 1 and `None` lat/lon chunks use chunks `[1, 1, 3, 4]`,
bounded by the shape `[2, 49, 3, 4]`. -/
theorem C8_chunk_bounds_witness :
    (initialize_zarr_store ⟨3, 4, "g"⟩ 2 1 none none).metas.lookup
        "total_precipitation"
      = some ⟨[2, 49, 3, 4], [1, 1, 3, 4], "f4", true⟩ :=
  (C8_chunk_bounds ⟨3, 4, "g"⟩ 2 1 (by decide)).2.1 "tp" (by decide)

/-- C9: after initialization with `ntime` dates on an `nlat`-by-`nlon`
grid, every Forecast variable's array has shape `(ntime, 49, nlat, nlon)`
and every Analysis variable's array has shape `(ntime, nlat, nlon)`, with
dtype 32-bit float and NaN fill, and every array body starts entirely at
the fill value. -/
theorem C9_array_shapes (gi : GridInfo) (ntime ct : Nat)
    (cl co : Option Nat) :
    (∀ v ∈ FORECAST_VARS, ∃ meta,
      (initialize_zarr_store gi ntime ct cl co).metas.lookup (VAR_NAME_MAP v)
          = some meta
        ∧ meta.shape = [ntime, 49, gi.nlat, gi.nlon]
        ∧ meta.dtype = "f4" ∧ meta.fill_nan = true)
    ∧ (∀ v ∈ ANALYSIS_VARS, ∃ meta,
      (initialize_zarr_store gi ntime ct cl co).metas.lookup (VAR_NAME_MAP v)
          = some meta
        ∧ meta.shape = [ntime, gi.nlat, gi.nlon]
        ∧ meta.dtype = "f4" ∧ meta.fill_nan = true)
    ∧ (∀ v ∈ FORECAST_VARS,
        (initialize_zarr_store gi ntime ct cl co).store.forecast
            (VAR_NAME_MAP v)
          = List.replicate ntime
              (List.replicate 49 (fill_grid gi.nlat gi.nlon)))
    ∧ (∀ v ∈ ANALYSIS_VARS,
        (initialize_zarr_store gi ntime ct cl co).store.analysis
            (VAR_NAME_MAP v)
          = List.replicate ntime (fill_grid gi.nlat gi.nlon)) := by
  refine ⟨?_, ?_, ?_, ?_⟩
  · intro v hv
    fin_cases hv <;> exact ⟨_, rfl, rfl, rfl, rfl⟩
  · intro v hv
    fin_cases hv <;> exact ⟨_, rfl, rfl, rfl, rfl⟩
  · intro v hv
    exact init_forecast_body gi ntime ct cl co v hv
  · intro v hv
    exact init_analysis_body gi ntime ct cl co v hv

/-- C9 witness: concrete shapes for `total_precipitation` and
`land_sea_mask` over a 3x4 grid with two dates. -/
theorem C9_array_shapes_witness :
    (∃ meta,
      (initialize_zarr_store ⟨3, 4, "g"⟩ 2 1 none none).metas.lookup
          (VAR_NAME_MAP "tp") = some meta
        ∧ meta.shape = [2, 49, 3, 4] ∧ meta.dtype = "f4"
        ∧ meta.fill_nan = true)
    ∧ (∃ meta,
      (initialize_zarr_store ⟨3, 4, "g"⟩ 2 1 none none).metas.lookup
          (VAR_NAME_MAP "lsm") = some meta
        ∧ meta.shape = [2, 3, 4] ∧ meta.dtype = "f4"
        ∧ meta.fill_nan = true) :=
  ⟨(C9_array_shapes ⟨3, 4, "g"⟩ 2 1 none none).1 "tp" (by decide),
   (C9_array_shapes ⟨3, 4, "g"⟩ 2 1 none none).2.1 "lsm" (by decide)⟩

end CreateZarr
